import Mathlib

/-
Verification of the export driver in `public/models/download_model.py`.

The script is a linear sequence inside one try/except scope:
  try:
      from ultralytics import YOLO  (followed by: import os)
      print("Downloading YOLOv8n-Pose model...")
      model = YOLO('yolov8n-pose.pt')
      print("Exporting to ONNX format...")
      model.export(format='onnx', imgsz=640, simplify=True)
      if os.path.exists('yolov8n-pose.onnx'):
          print("✅ Success! Model exported to: yolov8n-pose.onnx")
          print(f"   File size: {os.path.getsize(...) / (1024*1024):.2f} MB")
      else:
          print("❌ Error: Model file not found after export")
  except ImportError:
      print("❌ Error: ultralytics package not installed")
      print("   Install it with: pip install ultralytics")
  except Exception as e:
      print(f"❌ Error: {e}")

We embed runs of this script as a function of an environment describing the
behaviour of the external world (which library call raises which exception,
whether the output file exists afterwards and its byte size).  The driver
returns the list of printed lines together with any exception left uncaught
by its two handlers.
-/

/-- A Python exception value (an instance of `Exception`): whether it is an
`ImportError` (or a subclass of it, so that `except ImportError` catches it),
and its stringified text `str(e)`. -/
structure Exc where
  isImportError : Bool
  msg : String
deriving Repr, DecidableEq

/-- The environment of one run of the script: for each step of the try block,
the exception it raises (if any), and the state of the filesystem at the
verify step.  `importExc` is the exception raised by
`from ultralytics import YOLO`; `acquireExc` by `YOLO('yolov8n-pose.pt')`;
`exportExc` by `model.export(...)`; `verifyExc` by the
`os.path.exists`/`os.path.getsize` calls of the verify step.  `fileExists`
tells whether `yolov8n-pose.onnx` exists after the export call, and
`fileSize` is its size in bytes as returned by `os.path.getsize`. -/
structure Env where
  importExc : Option Exc
  acquireExc : Option Exc
  exportExc : Option Exc
  verifyExc : Option Exc
  fileExists : Bool
  fileSize : Nat
deriving Repr, DecidableEq

/-- The line printed before the acquire step (source line 10). -/
def downloadingMsg : String := "Downloading YOLOv8n-Pose model..."

/-- The line printed before the export step (source line 13). -/
def exportingMsg : String := "Exporting to ONNX format..."

/-- The success line (source line 18). -/
def successMsg : String := "✅ Success! Model exported to: yolov8n-pose.onnx"

/-- The not-found line (source line 21). -/
def notFoundMsg : String := "❌ Error: Model file not found after export"

/-- First line of the missing-dependency handler (source line 24). -/
def depMsg1 : String := "❌ Error: ultralytics package not installed"

/-- Second line of the missing-dependency handler (source line 25). -/
def depMsg2 : String := "   Install it with: pip install ultralytics"

/-- The generic handler's line `f"❌ Error: {e}"` (source line 27). -/
def genericMsg (s : String) : String := "❌ Error: " ++ s

/-- The value of `bytes / (1024*1024)` rounded to the nearest hundredth,
returned as a count of hundredths of a mebibyte.  The Python source divides
`os.path.getsize(...)` by `1024*1024` in binary floating point and formats
the quotient with `:.2f`; since the divisor is `2^20`, the float quotient is
the exact rational `bytes / 2^20`, and `:.2f` rounds it to two decimals with
ties going to the even last digit. -/
def roundHundredthsMB (bytes : Nat) : Nat :=
  let n := bytes * 100
  let d := 1024 * 1024
  let q := n / d
  let r := n % d
  if 2 * r < d then q
  else if d < 2 * r then q + 1
  else if q % 2 = 0 then q else q + 1

/-- Render a count of hundredths as a decimal numeral with exactly two
digits after the point, as `:.2f` does for a nonnegative value. -/
def twoDecString (h : Nat) : String :=
  toString (h / 100) ++ "." ++ (if h % 100 < 10 then "0" else "") ++ toString (h % 100)

/-- The `{os.path.getsize('yolov8n-pose.onnx') / (1024*1024):.2f}`
interpolation of source line 19. -/
def formatMB (bytes : Nat) : String := twoDecString (roundHundredthsMB bytes)

/-- The file-size line (source line 19). -/
def fileSizeLine (bytes : Nat) : String := "   File size: " ++ formatMB bytes ++ " MB"

/-- The try block (source lines 6-21): the lines it prints, and the
exception escaping it, if any.  Each step runs only if every earlier step
completed without raising; the two status prints precede the acquire and
export calls respectively, and the verify step prints its outcome only if
its own filesystem calls do not raise. -/
def tryBody (env : Env) : List String × Option Exc :=
  match env.importExc with
  | some e => ([], some e)
  | none =>
    match env.acquireExc with
    | some e => ([downloadingMsg], some e)
    | none =>
      match env.exportExc with
      | some e => ([downloadingMsg, exportingMsg], some e)
      | none =>
        match env.verifyExc with
        | some e => ([downloadingMsg, exportingMsg], some e)
        | none =>
          if env.fileExists then
            ([downloadingMsg, exportingMsg, successMsg, fileSizeLine env.fileSize], none)
          else
            ([downloadingMsg, exportingMsg, notFoundMsg], none)

/-- The whole script (source lines 6-27): the try block followed by the two
handlers, `except ImportError` first and `except Exception as e` second,
first match winning.  Returns the printed lines and the exception the script
lets propagate (every `Exc` models an instance of Python's `Exception`, so
the second handler catches whatever the first does not). -/
def driver (env : Env) : List String × Option Exc :=
  match tryBody env with
  | (out, none) => (out, none)
  | (out, some e) =>
    if e.isImportError then (out ++ [depMsg1, depMsg2], none)
    else (out ++ [genericMsg e.msg], none)

/-- The first exception raised inside the try block, if any: later steps run
only when every earlier step completed. -/
def firstExc (env : Env) : Option Exc :=
  match env.importExc with
  | some e => some e
  | none =>
    match env.acquireExc with
    | some e => some e
    | none =>
      match env.exportExc with
      | some e => some e
      | none => env.verifyExc

/-- The message text of the first exception of the run (empty if none). -/
def excMsg (env : Env) : String :=
  match firstExc env with
  | some e => e.msg
  | none => ""

/-- The four terminal outcomes of a run: success, output file absent,
missing dependency, or a generic error. -/
inductive Outcome
  | success
  | notFound
  | missingDep
  | generic
deriving Repr, DecidableEq

/-- The condition under which a run of the script ends in a given outcome,
read off the branch structure of the source. -/
def outcomeCond (env : Env) : Outcome → Prop
  | Outcome.missingDep => ∃ e, firstExc env = some e ∧ e.isImportError = true
  | Outcome.generic => ∃ e, firstExc env = some e ∧ e.isImportError = false
  | Outcome.success => firstExc env = none ∧ env.fileExists = true
  | Outcome.notFound => firstExc env = none ∧ env.fileExists = false

/-- The terminal message lines belonging to each outcome. -/
def terminalMsgs (env : Env) : Outcome → List String
  | Outcome.success => [successMsg, fileSizeLine env.fileSize]
  | Outcome.notFound => [notFoundMsg]
  | Outcome.missingDep => [depMsg1, depMsg2]
  | Outcome.generic => [genericMsg (excMsg env)]

/-- The outcome a run ends in, computed from the environment by the same
branch structure as the source. -/
def classify (env : Env) : Outcome :=
  match firstExc env with
  | some e => if e.isImportError then Outcome.missingDep else Outcome.generic
  | none => if env.fileExists then Outcome.success else Outcome.notFound

/-- The status lines printed before the terminal messages of a run: nothing
if the import raised, the downloading line if the acquire call raised, and
both status lines otherwise. -/
def basePre (env : Env) : List String :=
  match env.importExc with
  | some _ => []
  | none =>
    match env.acquireExc with
    | some _ => [downloadingMsg]
    | none => [downloadingMsg, exportingMsg]

lemma outcomeCond_iff (env : Env) (o : Outcome) :
    outcomeCond env o ↔ classify env = o := by
  rcases h : firstExc env with _ | e
  · cases hfe : env.fileExists <;> cases o <;>
      simp [outcomeCond, classify, h, hfe]
  · cases hie : e.isImportError <;> cases o <;>
      simp [outcomeCond, classify, h, hie]

lemma driver_out_eq (env : Env) :
    (driver env).1 = basePre env ++ terminalMsgs env (classify env) := by
  rcases env with ⟨imp, acq, ex, ver, fe, fs⟩
  cases imp <;> cases acq <;> cases ex <;> cases ver <;> cases fe <;>
    simp only [driver, tryBody, classify, firstExc, terminalMsgs, basePre, excMsg] <;>
    split_ifs <;> simp_all [terminalMsgs, excMsg]


/-- C1: every non-ImportError exception raised by the acquire, export, or
verify step inside the try block leads to the generic error line carrying
that exception's stringified text being printed, and the exception does not
propagate past the script's boundary. -/
theorem c1_generic_error_reported (env : Env) (e : Exc)
    (himp : env.importExc = none)
    (hstep : env.acquireExc = some e ∨
      (env.acquireExc = none ∧ env.exportExc = some e) ∨
      (env.acquireExc = none ∧ env.exportExc = none ∧ env.verifyExc = some e))
    (hie : e.isImportError = false) :
    genericMsg e.msg ∈ (driver env).1 ∧ (driver env).2 = none := by
  rcases hstep with h | ⟨ha, h⟩ | ⟨ha, hx, h⟩
  · simp [driver, tryBody, himp, h, hie]
  · simp [driver, tryBody, himp, ha, h, hie]
  · simp [driver, tryBody, himp, ha, hx, h, hie]

/-- Witness for C1: the export call raising a generic exception with message
"disk full" results in the line "❌ Error: disk full" and no propagation. -/
theorem c1_witness :
    (Exc.mk false "disk full").isImportError = false ∧
    (genericMsg "disk full" ∈
        (driver ⟨none, none, some ⟨false, "disk full"⟩, none, false, 0⟩).1 ∧
      (driver ⟨none, none, some ⟨false, "disk full"⟩, none, false, 0⟩).2 = none) :=
  ⟨rfl, c1_generic_error_reported _ ⟨false, "disk full"⟩ rfl
    (Or.inr (Or.inl ⟨rfl, rfl⟩)) rfl⟩

/-- C2: when no step raises and the output file exists, the script prints the
success line and the file-size line; the printed size is the byte count
divided by 1024*1024 rendered to two decimal places, i.e. the printed
hundredths value q satisfies |q * 2^20 - bytes * 100| ≤ 2^19; and nothing
propagates. -/
theorem c2_success_reports_size (env : Env)
    (h1 : env.importExc = none) (h2 : env.acquireExc = none)
    (h3 : env.exportExc = none) (h4 : env.verifyExc = none)
    (h5 : env.fileExists = true) :
    successMsg ∈ (driver env).1 ∧
    fileSizeLine env.fileSize ∈ (driver env).1 ∧
    fileSizeLine env.fileSize =
      "   File size: " ++ twoDecString (roundHundredthsMB env.fileSize) ++ " MB" ∧
    roundHundredthsMB env.fileSize * (1024 * 1024) ≤ env.fileSize * 100 + 524288 ∧
    env.fileSize * 100 ≤ roundHundredthsMB env.fileSize * (1024 * 1024) + 524288 ∧
    (driver env).2 = none := by
  refine ⟨?_, ?_, rfl, ?_, ?_, ?_⟩
  · simp [driver, tryBody, h1, h2, h3, h4, h5]
  · simp [driver, tryBody, h1, h2, h3, h4, h5]
  · dsimp only [roundHundredthsMB]
    have hmod := Nat.div_add_mod (env.fileSize * 100) (1024 * 1024)
    split_ifs <;> omega
  · dsimp only [roundHundredthsMB]
    have hmod := Nat.div_add_mod (env.fileSize * 100) (1024 * 1024)
    split_ifs <;> omega
  · simp [driver, tryBody, h1, h2, h3, h4, h5]

/-- Witness for C2: a 1,572,864-byte file (1.5 MiB) yields the success line
and a size line within half a hundredth of the true ratio. -/
theorem c2_witness :
    (⟨none, none, none, none, true, 1572864⟩ : Env).fileExists = true ∧
    (successMsg ∈ (driver ⟨none, none, none, none, true, 1572864⟩).1 ∧
      fileSizeLine 1572864 ∈ (driver ⟨none, none, none, none, true, 1572864⟩).1 ∧
      fileSizeLine 1572864 =
        "   File size: " ++ twoDecString (roundHundredthsMB 1572864) ++ " MB" ∧
      roundHundredthsMB 1572864 * (1024 * 1024) ≤ 1572864 * 100 + 524288 ∧
      1572864 * 100 ≤ roundHundredthsMB 1572864 * (1024 * 1024) + 524288 ∧
      (driver ⟨none, none, none, none, true, 1572864⟩).2 = none) :=
  ⟨rfl, c2_success_reports_size _ rfl rfl rfl rfl rfl⟩

/-- C3: if the library import raises an ImportError, the script prints the
missing-dependency line and the installation hint, and lets nothing
propagate past its boundary. -/
theorem c3_missing_dependency_reported (env : Env) (e : Exc)
    (himp : env.importExc = some e) (hie : e.isImportError = true) :
    depMsg1 ∈ (driver env).1 ∧ depMsg2 ∈ (driver env).1 ∧
    (driver env).2 = none := by
  simp [driver, tryBody, himp, hie]

/-- Witness for C3: a failed `from ultralytics import YOLO` produces both
lines of the missing-dependency pair. -/
theorem c3_witness :
    (Exc.mk true "No module named ultralytics").isImportError = true ∧
    (depMsg1 ∈
        (driver ⟨some ⟨true, "No module named ultralytics"⟩, none, none, none, false, 0⟩).1 ∧
      depMsg2 ∈
        (driver ⟨some ⟨true, "No module named ultralytics"⟩, none, none, none, false, 0⟩).1 ∧
      (driver ⟨some ⟨true, "No module named ultralytics"⟩, none, none, none, false, 0⟩).2 =
        none) :=
  ⟨rfl, c3_missing_dependency_reported _ ⟨true, "No module named ultralytics"⟩ rfl rfl⟩

/-- C4: if no step raises but the output file does not exist, the script
prints the not-found line and raises nothing further. -/
theorem c4_file_not_found_reported (env : Env)
    (h1 : env.importExc = none) (h2 : env.acquireExc = none)
    (h3 : env.exportExc = none) (h4 : env.verifyExc = none)
    (h5 : env.fileExists = false) :
    (driver env).1 = [downloadingMsg, exportingMsg, notFoundMsg] ∧
    (driver env).2 = none := by
  simp [driver, tryBody, h1, h2, h3, h4, h5]

/-- Witness for C4: an export that completes without raising but leaves no
output file ends with the not-found line. -/
theorem c4_witness :
    (⟨none, none, none, none, false, 0⟩ : Env).fileExists = false ∧
    ((driver ⟨none, none, none, none, false, 0⟩).1 =
        [downloadingMsg, exportingMsg, notFoundMsg] ∧
      (driver ⟨none, none, none, none, false, 0⟩).2 = none) :=
  ⟨rfl, c4_file_not_found_reported _ rfl rfl rfl rfl rfl⟩

/-- C5: every exception escaping the try block is classified into exactly one
of two buckets, first match winning: an ImportError gets the install
instruction pair, any other exception gets the stringified-message line, and
in both cases nothing propagates. -/
theorem c5_two_bucket_classification (env : Env) (out : List String) (e : Exc)
    (h : tryBody env = (out, some e)) :
    (e.isImportError = true → (driver env).1 = out ++ [depMsg1, depMsg2]) ∧
    (e.isImportError = false → (driver env).1 = out ++ [genericMsg e.msg]) ∧
    ¬(e.isImportError = true ∧ e.isImportError = false) ∧
    (driver env).2 = none := by
  cases hie : e.isImportError <;> simp [driver, h, hie]

/-- Witness for C5: an acquire-step exception that is not an ImportError
falls into the second bucket. -/
theorem c5_witness :
    tryBody ⟨none, some ⟨false, "connection reset"⟩, none, none, false, 0⟩ =
      ([downloadingMsg], some ⟨false, "connection reset"⟩) ∧
    (((Exc.mk false "connection reset").isImportError = true →
        (driver ⟨none, some ⟨false, "connection reset"⟩, none, none, false, 0⟩).1 =
          [downloadingMsg] ++ [depMsg1, depMsg2]) ∧
      ((Exc.mk false "connection reset").isImportError = false →
        (driver ⟨none, some ⟨false, "connection reset"⟩, none, none, false, 0⟩).1 =
          [downloadingMsg] ++ [genericMsg "connection reset"]) ∧
      ¬((Exc.mk false "connection reset").isImportError = true ∧
        (Exc.mk false "connection reset").isImportError = false) ∧
      (driver ⟨none, some ⟨false, "connection reset"⟩, none, none, false, 0⟩).2 = none) :=
  ⟨rfl, c5_two_bucket_classification _ [downloadingMsg] ⟨false, "connection reset"⟩ rfl⟩

/-- C6: whatever the environment does — success, missing library, absent
file, or any exception at any step — the script terminates normally: no
exception escapes its boundary, so failure shows only in the printed text. -/
theorem c6_always_normal_termination (env : Env) : (driver env).2 = none := by
  unfold driver
  rcases tryBody env with ⟨out, _ | e⟩
  · rfl
  · cases hie : e.isImportError <;> simp [hie]

/-- C7: when the library import raises an ImportError, the printed output is
exactly the missing-dependency pair — neither the downloading nor the
exporting status line appears — and the script terminates normally. -/
theorem c7_import_failure_exact_output (env : Env) (e : Exc)
    (himp : env.importExc = some e) (hie : e.isImportError = true) :
    (driver env).1 = [depMsg1, depMsg2] ∧
    downloadingMsg ∉ (driver env).1 ∧
    exportingMsg ∉ (driver env).1 ∧
    (driver env).2 = none := by
  have hl : (driver env).1 = [depMsg1, depMsg2] := by
    simp [driver, tryBody, himp, hie]
  refine ⟨hl, ?_, ?_, by simp [driver, tryBody, himp, hie]⟩
  · rw [hl]; decide
  · rw [hl]; decide

/-- Witness for C7: with the library absent the only output is the two
missing-dependency lines. -/
theorem c7_witness :
    (Exc.mk true "No module named ultralytics").isImportError = true ∧
    ((driver ⟨some ⟨true, "No module named ultralytics"⟩, none, none, none, true, 42⟩).1 =
        [depMsg1, depMsg2] ∧
      downloadingMsg ∉
        (driver ⟨some ⟨true, "No module named ultralytics"⟩, none, none, none, true, 42⟩).1 ∧
      exportingMsg ∉
        (driver ⟨some ⟨true, "No module named ultralytics"⟩, none, none, none, true, 42⟩).1 ∧
      (driver ⟨some ⟨true, "No module named ultralytics"⟩, none, none, none, true, 42⟩).2 =
        none) :=
  ⟨rfl, c7_import_failure_exact_output _ ⟨true, "No module named ultralytics"⟩ rfl rfl⟩

/-- C8: end-to-end scenario A — no step raises and the output file exists
with exactly 6,291,456 bytes: the success line is shown and the printed size
is "6.00 MB". -/
theorem c8_scenario_a_six_mb :
    formatMB 6291456 = "6.00" ∧
    driver ⟨none, none, none, none, true, 6291456⟩ =
      ([downloadingMsg, exportingMsg, successMsg, "   File size: 6.00 MB"], none) := by
  constructor
  · decide
  · decide

/-- C9: an ImportError raised at runtime by the acquire or the export call —
not by the initial library import — is still caught by the `except
ImportError` branch: the output ends with the missing-dependency pair and is
not the single generic error line built from the exception's own text. -/
theorem c9_runtime_import_error_caught (env : Env) (e : Exc)
    (himp : env.importExc = none) (hie : e.isImportError = true) :
    (env.acquireExc = some e →
      (driver env).1 = [downloadingMsg, depMsg1, depMsg2] ∧
      (driver env).1 ≠ [downloadingMsg, genericMsg e.msg] ∧
      (driver env).2 = none) ∧
    (env.acquireExc = none → env.exportExc = some e →
      (driver env).1 = [downloadingMsg, exportingMsg, depMsg1, depMsg2] ∧
      (driver env).1 ≠ [downloadingMsg, exportingMsg, genericMsg e.msg] ∧
      (driver env).2 = none) := by
  constructor
  · intro ha
    simp [driver, tryBody, himp, ha, hie]
  · intro ha hx
    simp [driver, tryBody, himp, ha, hx, hie]

/-- Witness for C9: an ImportError raised inside the export call (e.g. a
missing onnx backend) is reported as the missing-dependency pair. -/
theorem c9_witness :
    (Exc.mk true "No module named onnx").isImportError = true ∧
    ((driver ⟨none, none, some ⟨true, "No module named onnx"⟩, none, false, 0⟩).1 =
        [downloadingMsg, exportingMsg, depMsg1, depMsg2] ∧
      (driver ⟨none, none, some ⟨true, "No module named onnx"⟩, none, false, 0⟩).1 ≠
        [downloadingMsg, exportingMsg, genericMsg "No module named onnx"] ∧
      (driver ⟨none, none, some ⟨true, "No module named onnx"⟩, none, false, 0⟩).2 = none) :=
  ⟨rfl, (c9_runtime_import_error_caught
      ⟨none, none, some ⟨true, "No module named onnx"⟩, none, false, 0⟩
      ⟨true, "No module named onnx"⟩ rfl rfl).2 rfl rfl⟩

/-- C10: on every run exactly one of the four terminal outcomes — success,
file not found, missing dependency, generic error — holds, and the lines the
script prints end with that outcome's terminal message lines. -/
theorem c10_exactly_one_terminal_outcome (env : Env) :
    (∃! o : Outcome, outcomeCond env o) ∧
    ∀ o : Outcome, outcomeCond env o →
      ∃ pre : List String, (driver env).1 = pre ++ terminalMsgs env o := by
  constructor
  · exact ⟨classify env, (outcomeCond_iff env (classify env)).2 rfl,
      fun o ho => ((outcomeCond_iff env o).1 ho).symm⟩
  · intro o ho
    have hc : classify env = o := (outcomeCond_iff env o).1 ho
    exact ⟨basePre env, by rw [driver_out_eq env, hc]⟩
